import Mathlib

/-!
Shallow embedding of the VRRVRR metronome firmware core (src/main.c,
src/config.h) and proofs about it.

Machine integers are modelled as `Nat` with explicit reductions modulo
2^8, 2^16 or 2^64 exactly where the C code can overflow.  Hardware side
effects (GPIO, PWM, flash program, alarms) are external I/O; what the
firmware state machine stores about them (the running repeating timer,
its interval argument, the one-shot release lock, ...) is kept in an
explicit state record which every operation threads through.
-/

namespace VRRVRR

/-- Width of the C `uint64_t` timestamps and intervals. -/
def U64 : Nat := 2 ^ 64

/-- Global firmware state: the mutable globals of src/main.c plus the two
`static` locals of `tap` and the repeating-timer handles that the code
arms and cancels.  `metronome = none` models a cancelled beat timer;
`some i` records the (negative) microsecond interval passed to
`add_repeating_timer_us`.  `tempo_change` likewise models the ±1 repeat
timer: `some true` runs `increase_tempo`, `some false` runs
`decrease_tempo`. -/
structure MetState where
  tempo : Nat                      -- uint8_t, BPM, 0..255
  subdiv : Nat                     -- uint8_t, subdivisions of the measure
  accent : Bool
  tempo_prompt : Nat               -- uint16_t digit-entry buffer
  num_taps : Nat                   -- uint8_t
  ticks : Nat                      -- uint8_t subdivision counter
  paused : Bool
  recalc_interval : Bool
  last_press : Nat                 -- uint64_t microsecond timestamp
  long_pressed_release_lock : Bool
  tap_interval_avg : Nat           -- uint64_t, static local of tap()
  last_tap : Nat                   -- uint64_t, static local of tap()
  metronome : Option Int
  tempo_change : Option Bool
  tempo_presets : List Nat         -- uint8_t[4]
  subdiv_presets : List Nat        -- uint8_t[4]
  accent_presets : List Nat        -- uint8_t[4]
deriving DecidableEq, Repr

/-- The globals as C zero/explicitly initialises them at boot
(`subdiv = 1`, `accent = true`, `paused = true`, presets from
config.h defaults). -/
def initState : MetState :=
  { tempo := 0
    subdiv := 1
    accent := true
    tempo_prompt := 0
    num_taps := 0
    ticks := 0
    paused := true
    recalc_interval := false
    last_press := 0
    long_pressed_release_lock := false
    tap_interval_avg := 0
    last_tap := 0
    metronome := none
    tempo_change := none
    tempo_presets := [60, 90, 60, 150]
    subdiv_presets := [1, 1, 2, 1]
    accent_presets := [0, 0, 1, 0] }

/-- `bpm_to_interval` from src/main.c: microseconds per beat,
`(60 * 1000 * 1000) / t` in integer division. -/
def bpm_to_interval (t : Nat) : Nat := 60 * 1000 * 1000 / t

/-- `interval_to_bpm` from src/main.c: `(uint8_t)((60*1000*1000) / interval)`;
the cast to `uint8_t` is the reduction modulo 256. -/
def interval_to_bpm (interval : Nat) : Nat := 60 * 1000 * 1000 / interval % 256

/-- `stop` from src/main.c: cancel the beat timer and mark paused. -/
def stop (s : MetState) : MetState := { s with metronome := none, paused := true }

/-- `set_tempo` from src/main.c.  The C computes the interval in a
`uint64_t`, divides it by `subdiv`, multiplies by `-1` (two's-complement)
and hands the result to `add_repeating_timer_us` as an `int64_t`; since
the magnitude is at most 6·10^7 < 2^63 that reinterpretation is exactly
the negative integer recorded here. -/
def set_tempo (t : Nat) (s : MetState) : MetState :=
  if t < 1 then s
  else
    let s := { s with tempo := t, ticks := 0 }
    let s := stop s
    let interval := bpm_to_interval t / s.subdiv
    { s with metronome := some (-(interval : Int)), paused := false }

/-- `tick` from src/main.c.  Returns the `is_first` flag that selects the
accent pulse shape (purple blink, stronger vibration) together with the
successor state; `++ticks` is the uint8_t increment. -/
def tick (s : MetState) : Bool × MetState :=
  let is_first := s.accent && s.ticks == 0
  let t := (s.ticks + 1) % 256
  let s := { s with ticks := if s.subdiv ≤ t then 0 else t }
  let s :=
    if s.recalc_interval then
      let s := stop s
      let s := if 0 < s.tempo then set_tempo s.tempo s else s
      { s with recalc_interval := false }
    else s
  (is_first, s)

/-- Iterated `tick`: the state after `n` timer firings. -/
def tickIter : Nat → MetState → MetState
  | 0, s => s
  | n + 1, s => (tick (tickIter n s)).2

/-- `increase_tempo` from src/main.c (bound to the `#` key; it
decrements the BPM value). -/
def increase_tempo (s : MetState) : MetState :=
  let s := if 0 < s.tempo then { s with tempo := s.tempo - 1 } else s
  { s with recalc_interval := true }

/-- `decrease_tempo` from src/main.c (bound to the `*` key; it
increments the BPM value).  `tempo` is a `uint8_t`, so the guard
`tempo < 256` is always true and `tempo++` wraps modulo 256. -/
def decrease_tempo (s : MetState) : MetState :=
  let s := if s.tempo < 256 then { s with tempo := (s.tempo + 1) % 256 } else s
  { s with recalc_interval := true }

/-- `increase_tempo_hold` from src/main.c: re-arm the 50 ms repeat timer
with the `increase_tempo` callback and clear the release lock. -/
def increase_tempo_hold (s : MetState) : MetState :=
  { s with tempo_change := some true, long_pressed_release_lock := false }

/-- `decrease_tempo_hold` from src/main.c: re-arm the 50 ms repeat timer
with the `decrease_tempo` callback and clear the release lock. -/
def decrease_tempo_hold (s : MetState) : MetState :=
  { s with tempo_change := some false, long_pressed_release_lock := false }

/-- `set_measure` from src/main.c. -/
def set_measure (m : Nat) (s : MetState) : MetState :=
  if m < 1 ∨ 9 < m then s
  else
    let s := { s with subdiv := m }
    let s := stop s
    if 0 < s.tempo then set_tempo s.tempo s else s

/-- `toggle_accent` from src/main.c. -/
def toggle_accent (s : MetState) : MetState := { s with accent := !s.accent }

/-- `input_timeout` from src/main.c: the typed-digit buffer is discarded. -/
def input_timeout (s : MetState) : MetState := { s with tempo_prompt := 0 }

/-- `tap_timeout` from src/main.c: only the tap count is reset, the
running average is kept. -/
def tap_timeout (s : MetState) : MetState := { s with num_taps := 0 }

/-- `type_tempo` from src/main.c.  `tempo_prompt` is a `uint16_t`, so the
`*= 10; += n` update is taken modulo 2^16. -/
def type_tempo (n : Nat) (s : MetState) : MetState :=
  let s := stop s
  let s := { s with tempo_prompt := (s.tempo_prompt * 10 + n) % 65536 }
  if 0 < s.tempo_prompt ∧ s.tempo_prompt < 256 then set_tempo s.tempo_prompt s else s

/-- Feeding a digit sequence to `type_tempo`, first digit first. -/
def type_seq (ds : List Nat) (s : MetState) : MetState :=
  ds.foldl (fun t d => type_tempo d t) s

/-- `tap` from src/main.c, with `now = time_us_64()` passed in.  The
subtraction `now - last_tap` and the sum with the running average are
`uint64_t` arithmetic, hence the reductions modulo 2^64. -/
def tap (now : Nat) (s : MetState) : MetState :=
  let s := stop s
  let s := { s with num_taps := (s.num_taps + 1) % 256 }
  let s :=
    if 1 < s.num_taps then
      let avg := (s.tap_interval_avg + (now + U64 - s.last_tap) % U64) % U64 / 2
      set_tempo (interval_to_bpm avg) { s with tap_interval_avg := avg }
    else s
  { s with last_tap := now % U64 }

/-- `MAGIC_NUMBER` from src/config.h: the bytes of the `'BPM'`
signature. -/
def MAGIC_NUMBER : List Nat := [0x42, 0x50, 0x4D]

/-- The validation of `read_flash_presets` in src/main.c: the loops set
`invalid_data` as soon as a signature byte differs from the magic, a
tempo byte leaves 1..255, a subdivision byte leaves 1..10 or an accent
byte exceeds 1.  Stated as the disjunction the loops accumulate. -/
def invalid_block (stored : List Nat) : Prop :=
  (∃ i < 3, stored.getD i 0 ≠ MAGIC_NUMBER.getD i 0) ∨
  (∃ i < 4, stored.getD (3 + i) 0 < 1 ∨ 255 < stored.getD (3 + i) 0
    ∨ stored.getD (3 + i + 4) 0 < 1 ∨ 10 < stored.getD (3 + i + 4) 0
    ∨ 1 < stored.getD (3 + i + 8) 0)

instance : DecidablePred invalid_block := fun stored => by
  unfold invalid_block; infer_instance

/-- `read_flash_presets` from src/main.c: `stored` is the byte view of
the flash page at `XIP_BASE + FLASH_TARGET_OFFSET`; only when every
check passes are all three preset arrays overwritten from the block. -/
def read_flash_presets (stored : List Nat) (s : MetState) : MetState :=
  if invalid_block stored then s
  else
    { s with
      tempo_presets := (List.range 4).map fun i => stored.getD (3 + i) 0
      subdiv_presets := (List.range 4).map fun i => stored.getD (3 + i + 4) 0
      accent_presets := (List.range 4).map fun i => stored.getD (3 + i + 8) 0 }

/-- `save_preset` from src/main.c.  The green notification blink, the
flash write (`write_flash_presets`) and the `sleep_ms` are external
effects; the state change is the slot update, the stop and the
restart. -/
def save_preset (c : Nat) (s : MetState) : MetState :=
  if s.tempo = 0 then s
  else
    let s :=
      { s with
        tempo_presets := s.tempo_presets.set c s.tempo
        subdiv_presets := s.subdiv_presets.set c s.subdiv
        accent_presets := s.accent_presets.set c (if s.accent then 1 else 0) }
    let s := stop s
    set_tempo s.tempo s

/-- `apply_preset` from src/main.c: live tempo and accent are copied
from the slot first, then `set_measure` is called with the slot's
subdivision. -/
def apply_preset (c : Nat) (s : MetState) : MetState :=
  let s :=
    { s with
      tempo := s.tempo_presets.getD c 0
      accent := s.accent_presets.getD c 0 != 0 }
  set_measure (s.subdiv_presets.getD c 0) s

/-- Observable operations a key-event handler performs, recorded in
order so that theorems can speak about which routines a keypad event
triggers. -/
inductive Action where
  | typeTempo (n : Nat)
  | tapEvent
  | applyPresetAct (c : Nat)
  | savePresetAct (c : Nat)
  | setMeasureAct (m : Nat)
  | toggleAccentAct
  | cancelTempoChange
  | stepDecrease
  | stepIncrease
  | holdDecrease
  | holdIncrease
  | feedbackBlink
deriving DecidableEq, Repr

/-- `key_pressed` from src/main.c: records the press time for the
dormant-mode check and steps the tempo on the `*` and `#` keys. -/
def key_pressed (now key : Nat) (s : MetState) : List Action × MetState :=
  let s := { s with last_press := now }
  match key with
  | 12 => ([Action.stepDecrease], decrease_tempo s)
  | 14 => ([Action.stepIncrease], increase_tempo s)
  | _ => ([], s)

/-- `key_released` from src/main.c, with `now` the time a tap on key 13
would observe.  When the one-shot long-press lock is set, the handler
clears it and returns before doing anything, the feedback blink
included. -/
def key_released (now key : Nat) (s : MetState) : List Action × MetState :=
  if s.long_pressed_release_lock then
    ([], { s with long_pressed_release_lock := false })
  else
    let r : List Action × MetState :=
      match key with
      | 0 => ([Action.typeTempo 1], type_tempo 1 s)
      | 1 => ([Action.typeTempo 2], type_tempo 2 s)
      | 2 => ([Action.typeTempo 3], type_tempo 3 s)
      | 4 => ([Action.typeTempo 4], type_tempo 4 s)
      | 5 => ([Action.typeTempo 5], type_tempo 5 s)
      | 6 => ([Action.typeTempo 6], type_tempo 6 s)
      | 8 => ([Action.typeTempo 7], type_tempo 7 s)
      | 9 => ([Action.typeTempo 8], type_tempo 8 s)
      | 10 => ([Action.typeTempo 9], type_tempo 9 s)
      | 13 =>
        if 0 < s.tempo_prompt then ([Action.typeTempo 0], type_tempo 0 s)
        else ([Action.tapEvent], tap now s)
      | 3 => ([Action.applyPresetAct 0], apply_preset 0 s)
      | 7 => ([Action.applyPresetAct 1], apply_preset 1 s)
      | 11 => ([Action.applyPresetAct 2], apply_preset 2 s)
      | 15 => ([Action.applyPresetAct 3], apply_preset 3 s)
      | 12 => ([Action.cancelTempoChange], { s with tempo_change := none })
      | 14 => ([Action.cancelTempoChange], { s with tempo_change := none })
      | _ => ([], s)
    (r.1 ++ [Action.feedbackBlink], r.2)

/-- `key_long_pressed` from src/main.c: sets the one-shot release lock
first, then dispatches; note that the two hold handlers (keys 12 and
14) clear that lock again. -/
def key_long_pressed (key : Nat) (s : MetState) : List Action × MetState :=
  let s := { s with long_pressed_release_lock := true }
  match key with
  | 0 => ([Action.setMeasureAct 1], set_measure 1 s)
  | 1 => ([Action.setMeasureAct 2], set_measure 2 s)
  | 2 => ([Action.setMeasureAct 3], set_measure 3 s)
  | 4 => ([Action.setMeasureAct 4], set_measure 4 s)
  | 5 => ([Action.setMeasureAct 5], set_measure 5 s)
  | 6 => ([Action.setMeasureAct 6], set_measure 6 s)
  | 8 => ([Action.setMeasureAct 7], set_measure 7 s)
  | 9 => ([Action.setMeasureAct 8], set_measure 8 s)
  | 10 => ([Action.setMeasureAct 9], set_measure 9 s)
  | 13 => ([Action.toggleAccentAct], toggle_accent s)
  | 3 => ([Action.savePresetAct 0], save_preset 0 s)
  | 7 => ([Action.savePresetAct 1], save_preset 1 s)
  | 11 => ([Action.savePresetAct 2], save_preset 2 s)
  | 15 => ([Action.savePresetAct 3], save_preset 3 s)
  | 12 => ([Action.holdDecrease], decrease_tempo_hold s)
  | 14 => ([Action.holdIncrease], increase_tempo_hold s)
  | _ => ([], s)

/-- A running state used as a concrete input in theorems: tempo 100,
scheduler started with the matching 600 ms interval. -/
def runningAt100 : MetState :=
  { initState with tempo := 100, paused := false, metronome := some (-600000) }

/-- A persisted block whose only deviation from the 1..9 subdivision
range is a first subdivision byte of 10; signature and all other fields
are in range. -/
def subdivTenBlock : List Nat :=
  [0x42, 0x50, 0x4D, 100, 100, 100, 100, 10, 1, 1, 1, 0, 0, 0, 0]

/-- A state in the middle of digit entry: buffer holds 26, live tempo
100. -/
def promptAt26 : MetState := { initState with tempo := 100, tempo_prompt := 26 }

/-- A freshly retimed state with three subdivisions per beat. -/
def subdivThree : MetState := { initState with subdiv := 3 }

/-- A state whose slot 0 preset carries the out-of-range subdivision 10
(reachable after loading `subdivTenBlock`), with the scheduler running
at tempo 90 over two subdivisions. -/
def slotTenState : MetState :=
  { initState with
      tempo := 90
      subdiv := 2
      paused := false
      metronome := some (-333333)
      tempo_presets := [200, 90, 60, 150]
      subdiv_presets := [10, 1, 2, 1]
      accent_presets := [1, 0, 1, 0] }

end VRRVRR

set_option maxRecDepth 8192

namespace VRRVRR

/-- C9: round-tripping a BPM value through `bpm_to_interval` and back
through `interval_to_bpm` is the identity on the whole valid tempo range
1..255 — the truncation error of the two integer divisions vanishes
because 255² < 60,000,000, so the claimed bound (result within
truncation error of `bpm`, never exceeding it) holds with equality. -/
theorem bpm_roundtrip_exact (bpm : Nat) (h1 : 1 ≤ bpm) (h2 : bpm ≤ 255) :
    interval_to_bpm (bpm_to_interval bpm) = bpm := by
  have h : ∀ b : Nat, b < 256 → 1 ≤ b → interval_to_bpm (bpm_to_interval b) = b := by decide
  exact h bpm (by omega) h1

/-- Witness for C9 at bpm = 120. -/
theorem bpm_roundtrip_exact_witness :
    1 ≤ 120 ∧ 120 ≤ 255 ∧ interval_to_bpm (bpm_to_interval 120) = 120 :=
  ⟨by decide, by decide, bpm_roundtrip_exact 120 (by decide) (by decide)⟩

/-- C3: evaluation at the failing inputs.  One `decrease_tempo` step
(the key that increments the BPM) at tempo 255 wraps the `uint8_t` to 0
because its guard `tempo < 256` is vacuously true, and one
`increase_tempo` step (the key that decrements) at tempo 1 lands on 0;
both contradict the claim that no single step moves a tempo in 1–255
below 1 or wraps it past 255. -/
theorem tempo_step_wraps_at_bounds :
    (decrease_tempo { initState with tempo := 255 }).tempo = 0 ∧
    (increase_tempo { initState with tempo := 1 }).tempo = 0 := by
  constructor <;> rfl

end VRRVRR

namespace VRRVRR

/-- C1 (amended): from a reset tap state (no taps recorded, running
average still 0), two taps exactly 500 ms apart start the scheduler, but
at 240 BPM, because the average `(0 + 500000) / 2 = 250000 µs` is seeded
from the zero-initialised static; a third tap 1000 ms after the second
restarts it at the averaged interval `(250000 + 1000000) / 2 = 625000 µs`,
i.e. 96 BPM. -/
theorem tap_avg_seeded_from_zero (t : Nat) (s : MetState)
    (hn : s.num_taps = 0) (ha : s.tap_interval_avg = 0)
    (ht : t + 1500000 < U64) :
    (tap (t + 500000) (tap t s)).tempo = 240 ∧
    (tap (t + 500000) (tap t s)).paused = false ∧
    (tap (t + 500000) (tap t s)).tap_interval_avg = 250000 ∧
    (tap (t + 1500000) (tap (t + 500000) (tap t s))).tempo = 96 ∧
    (tap (t + 1500000) (tap (t + 500000) (tap t s))).paused = false ∧
    (tap (t + 1500000) (tap (t + 500000) (tap t s))).tap_interval_avg = 625000 := by
  have hU : (500000 : Nat) < U64 := by norm_num [U64]
  have htm : t % U64 = t := Nat.mod_eq_of_lt (by omega)
  have h5 : (500000 : Nat) % U64 = 500000 := Nat.mod_eq_of_lt hU
  have hd1 : (t + 500000 + U64 - t % U64) % U64 = 500000 := by
    rw [htm]
    have h : t + 500000 + U64 - t = 500000 + U64 := by omega
    rw [h, Nat.add_mod_right, Nat.mod_eq_of_lt hU]
  have e1 : tap t s =
      { s with metronome := none, paused := true, num_taps := 1, last_tap := t % U64 } := by
    simp [tap, stop, hn]
  have e2 : tap (t + 500000) (tap t s) =
      { s with metronome := some (-(250000 / s.subdiv : Nat) : Int), paused := false,
               num_taps := 2, tempo := 240, ticks := 0,
               tap_interval_avg := 250000, last_tap := (t + 500000) % U64 } := by
    rw [e1]
    simp [tap, stop, set_tempo, interval_to_bpm, bpm_to_interval, ha, hd1, h5]
  have h55 : (t + 500000) % U64 = t + 500000 := Nat.mod_eq_of_lt (by omega)
  have h125 : (1250000 : Nat) % U64 = 1250000 := Nat.mod_eq_of_lt (by norm_num [U64])
  have hd2 : (t + 1500000 + U64 - (t + 500000) % U64) % U64 = 1000000 := by
    rw [h55]
    have h : t + 1500000 + U64 - (t + 500000) = 1000000 + U64 := by omega
    rw [h, Nat.add_mod_right]
    exact Nat.mod_eq_of_lt (by norm_num [U64])
  have e3 : tap (t + 1500000) (tap (t + 500000) (tap t s)) =
      { s with metronome := some (-(625000 / s.subdiv : Nat) : Int), paused := false,
               num_taps := 3, tempo := 96, ticks := 0,
               tap_interval_avg := 625000, last_tap := (t + 1500000) % U64 } := by
    rw [e2]
    simp [tap, stop, set_tempo, interval_to_bpm, bpm_to_interval, hd2, h125]
  rw [e3, e2]
  refine ⟨rfl, rfl, rfl, rfl, rfl, rfl⟩

/-- C1, counterexample to the claim as stated: from the boot state two
taps 500 ms apart set tempo 240, not 120, and a third tap 1000 ms later
sets 96, not 80. -/
theorem tap_two_500ms_not_120 :
    (tap 501000 (tap 1000 initState)).tempo = 240 ∧
    (tap 501000 (tap 1000 initState)).tempo ≠ 120 ∧
    (tap 1501000 (tap 501000 (tap 1000 initState))).tempo = 96 ∧
    (tap 1501000 (tap 501000 (tap 1000 initState))).tempo ≠ 80 := by
  refine ⟨by decide, by decide, by decide, by decide⟩

/-- Witness for the amended C1 theorem with the first tap at 1000 µs. -/
theorem tap_avg_seeded_from_zero_witness :
    initState.num_taps = 0 ∧ initState.tap_interval_avg = 0 ∧ 1000 + 1500000 < U64 ∧
    ((tap (1000 + 500000) (tap 1000 initState)).tempo = 240 ∧
     (tap (1000 + 500000) (tap 1000 initState)).paused = false ∧
     (tap (1000 + 500000) (tap 1000 initState)).tap_interval_avg = 250000 ∧
     (tap (1000 + 1500000) (tap (1000 + 500000) (tap 1000 initState))).tempo = 96 ∧
     (tap (1000 + 1500000) (tap (1000 + 500000) (tap 1000 initState))).paused = false ∧
     (tap (1000 + 1500000) (tap (1000 + 500000) (tap 1000 initState))).tap_interval_avg = 625000) :=
  ⟨rfl, rfl, by decide, tap_avg_seeded_from_zero 1000 initState rfl rfl (by decide)⟩

/-- C2, counterexample to the claim as stated: typing [2,6,0] while the
metronome runs at tempo 100 does not leave the live tempo at 100 — the
intermediate prefix 26 was applied, and the final digit's `stop` leaves
the scheduler stopped. -/
theorem type_260_changes_tempo :
    (type_seq [2, 6, 0] runningAt100).tempo ≠ 100 ∧
    (type_seq [2, 6, 0] runningAt100).tempo = 26 ∧
    (type_seq [2, 6, 0] runningAt100).paused = true := by
  refine ⟨by decide, by decide, by decide⟩

/-- C2 (amended): from an empty entry buffer, typing [1,2,0] leaves the
scheduler running at live tempo 120; typing [2,6,0] accumulates 260,
which is never applied, but the intermediate prefix 26 was applied while
typing, so the live tempo ends at 26 and the final digit's `stop` leaves
the scheduler stopped. -/
theorem type_seq_120_and_260 (s : MetState) (h : s.tempo_prompt = 0) :
    (type_seq [1, 2, 0] s).tempo = 120 ∧
    (type_seq [1, 2, 0] s).paused = false ∧
    (type_seq [1, 2, 0] s).tempo_prompt = 120 ∧
    (type_seq [2, 6, 0] s).tempo = 26 ∧
    (type_seq [2, 6, 0] s).paused = true ∧
    (type_seq [2, 6, 0] s).metronome = none ∧
    (type_seq [2, 6, 0] s).tempo_prompt = 260 := by
  simp [type_seq, type_tempo, set_tempo, stop, h]

/-- Witness for the amended C2 theorem at the boot state. -/
theorem type_seq_120_and_260_witness :
    initState.tempo_prompt = 0 ∧
    ((type_seq [1, 2, 0] initState).tempo = 120 ∧
     (type_seq [1, 2, 0] initState).paused = false ∧
     (type_seq [1, 2, 0] initState).tempo_prompt = 120 ∧
     (type_seq [2, 6, 0] initState).tempo = 26 ∧
     (type_seq [2, 6, 0] initState).paused = true ∧
     (type_seq [2, 6, 0] initState).metronome = none ∧
     (type_seq [2, 6, 0] initState).tempo_prompt = 260) :=
  ⟨rfl, type_seq_120_and_260 initState rfl⟩

lemma stop_lock (s : MetState) :
    (stop s).long_pressed_release_lock = s.long_pressed_release_lock := rfl

lemma set_tempo_lock (t : Nat) (s : MetState) :
    (set_tempo t s).long_pressed_release_lock = s.long_pressed_release_lock := by
  unfold set_tempo; split <;> rfl

lemma set_measure_lock (m : Nat) (s : MetState) :
    (set_measure m s).long_pressed_release_lock = s.long_pressed_release_lock := by
  unfold set_measure
  split
  · rfl
  · dsimp only
    split <;> simp [set_tempo_lock, stop_lock]

lemma save_preset_lock (c : Nat) (s : MetState) :
    (save_preset c s).long_pressed_release_lock = s.long_pressed_release_lock := by
  unfold save_preset
  split
  · rfl
  · simp [set_tempo_lock, stop_lock]

/-- C4, counterexample to the claim as stated: for key 12 (the `*`
adjustment key) the paired release after a long press is NOT swallowed —
`decrease_tempo_hold` clears the lock, so the release still cancels the
repeat timer and emits the feedback blink. -/
theorem plus_minus_release_not_swallowed :
    (key_released 0 12 (key_long_pressed 12 initState).2).1 ≠ [] ∧
    (key_released 0 12 (key_long_pressed 12 initState).2).1 =
      [Action.cancelTempoChange, Action.feedbackBlink] := by
  refine ⟨by decide, by decide⟩

/-- C4 (amended): for every key except 12 and 14 (the `*` and `#`
adjustment keys, whose hold handlers clear the lock so that their
release cancels the repeat timer), a long press sets the one-shot lock
and the paired release is swallowed exactly once, performing no action
and clearing the lock; in particular a long press of a letter key
triggers `save_preset` exactly once and its swallowed release does not
trigger `apply_preset`. -/
theorem long_press_release_suppressed (key now : Nat) (s : MetState)
    (hk : key < 16) (h12 : key ≠ 12) (h14 : key ≠ 14) :
    (key_long_pressed key s).2.long_pressed_release_lock = true ∧
    key_released now key (key_long_pressed key s).2 =
      ([], { (key_long_pressed key s).2 with long_pressed_release_lock := false }) ∧
    (key = 3 ∨ key = 7 ∨ key = 11 ∨ key = 15 →
      ∃ c, (key_long_pressed key s).1 = [Action.savePresetAct c]) := by
  have hlock : (key_long_pressed key s).2.long_pressed_release_lock = true := by
    interval_cases key <;>
      simp_all [key_long_pressed, set_measure_lock, save_preset_lock, toggle_accent]
  refine ⟨hlock, ?_, ?_⟩
  · rw [key_released.eq_def, if_pos hlock]
  · intro hc
    rcases hc with h | h | h | h <;> subst h <;>
      exact ⟨_, rfl⟩

/-- Witness for the amended C4 theorem at letter key A (key 3). -/
theorem long_press_release_suppressed_witness :
    (3 : Nat) < 16 ∧ (3 : Nat) ≠ 12 ∧ (3 : Nat) ≠ 14 ∧
    ((key_long_pressed 3 initState).2.long_pressed_release_lock = true ∧
     key_released 0 3 (key_long_pressed 3 initState).2 =
       ([], { (key_long_pressed 3 initState).2 with long_pressed_release_lock := false }) ∧
     ((3 : Nat) = 3 ∨ (3 : Nat) = 7 ∨ (3 : Nat) = 11 ∨ (3 : Nat) = 15 →
       ∃ c, (key_long_pressed 3 initState).1 = [Action.savePresetAct c])) :=
  ⟨by decide, by decide, by decide,
    long_press_release_suppressed 3 0 initState (by decide) (by decide) (by decide)⟩

end VRRVRR

namespace VRRVRR

/-- C5, counterexample to the claim as stated: the block whose only
deviation is a subdivision byte equal to 10 is NOT rejected —
`read_flash_presets` accepts it and overwrites the preset slots. -/
theorem subdiv_ten_block_accepted :
    read_flash_presets subdivTenBlock initState ≠ initState ∧
    (read_flash_presets subdivTenBlock initState).subdiv_presets = [10, 1, 1, 1] ∧
    (read_flash_presets subdivTenBlock initState).tempo_presets = [100, 100, 100, 100] := by
  refine ⟨by decide, by decide, by decide⟩

/-- C5 (amended): startup preset loading accepts the persisted block
when, in addition to the 3-byte magic signature matching, every tempo
byte is in 1–255, every subdivision byte is in 1–10 (not 1–9: the code
checks `> 10`), and every accent byte is 0 or 1; a block whose only
deviation from the 1–9 range is a subdivision byte equal to 10 is
therefore accepted and overwrites all four slots. -/
theorem load_accepts_subdiv_up_to_ten (stored : List Nat) (s : MetState)
    (hsig : ∀ i < 3, stored.getD i 0 = MAGIC_NUMBER.getD i 0)
    (htempo : ∀ i < 4, 1 ≤ stored.getD (3 + i) 0 ∧ stored.getD (3 + i) 0 ≤ 255)
    (hsub : ∀ i < 4, 1 ≤ stored.getD (3 + i + 4) 0 ∧ stored.getD (3 + i + 4) 0 ≤ 10)
    (hacc : ∀ i < 4, stored.getD (3 + i + 8) 0 ≤ 1) :
    read_flash_presets stored s =
      { s with
          tempo_presets := (List.range 4).map fun i => stored.getD (3 + i) 0
          subdiv_presets := (List.range 4).map fun i => stored.getD (3 + i + 4) 0
          accent_presets := (List.range 4).map fun i => stored.getD (3 + i + 8) 0 } := by
  rw [read_flash_presets, if_neg]
  rintro (⟨i, hi, hbad⟩ | ⟨i, hi, hbad⟩)
  · exact hbad (hsig i hi)
  · have h1 := htempo i hi
    have h2 := hsub i hi
    have h3 := hacc i hi
    omega

/-- Witness for the amended C5 theorem at the subdivision-10 block. -/
theorem load_accepts_subdiv_up_to_ten_witness :
    (∀ i < 3, subdivTenBlock.getD i 0 = MAGIC_NUMBER.getD i 0) ∧
    (∀ i < 4, 1 ≤ subdivTenBlock.getD (3 + i) 0 ∧ subdivTenBlock.getD (3 + i) 0 ≤ 255) ∧
    (∀ i < 4, 1 ≤ subdivTenBlock.getD (3 + i + 4) 0 ∧ subdivTenBlock.getD (3 + i + 4) 0 ≤ 10) ∧
    (∀ i < 4, subdivTenBlock.getD (3 + i + 8) 0 ≤ 1) ∧
    read_flash_presets subdivTenBlock initState =
      { initState with
          tempo_presets := (List.range 4).map fun i => subdivTenBlock.getD (3 + i) 0
          subdiv_presets := (List.range 4).map fun i => subdivTenBlock.getD (3 + i + 4) 0
          accent_presets := (List.range 4).map fun i => subdivTenBlock.getD (3 + i + 8) 0 } :=
  ⟨by decide, by decide, by decide, by decide,
    load_accepts_subdiv_up_to_ten subdivTenBlock initState
      (by decide) (by decide) (by decide) (by decide)⟩

/-- C6: validation is all-or-nothing.  Any corrupted signature byte, any
subdivision byte equal to 0 or 11, any tempo byte equal to 0 or any
accent byte above 1 makes `read_flash_presets` copy nothing — all four
slots keep the compiled-in defaults of `initState` — while a block
passing every check overwrites all four slots from the block. -/
theorem load_all_or_nothing (stored : List Nat) :
    ((∃ i < 3, stored.getD i 0 ≠ MAGIC_NUMBER.getD i 0) ∨
     (∃ i < 4, stored.getD (3 + i + 4) 0 = 0 ∨ stored.getD (3 + i + 4) 0 = 11) ∨
     (∃ i < 4, stored.getD (3 + i) 0 = 0) ∨
     (∃ i < 4, 1 < stored.getD (3 + i + 8) 0) →
      read_flash_presets stored initState = initState) ∧
    (¬ invalid_block stored →
      read_flash_presets stored initState =
        { initState with
            tempo_presets := (List.range 4).map fun i => stored.getD (3 + i) 0
            subdiv_presets := (List.range 4).map fun i => stored.getD (3 + i + 4) 0
            accent_presets := (List.range 4).map fun i => stored.getD (3 + i + 8) 0 }) := by
  constructor
  · intro hbad
    rw [read_flash_presets, if_pos]
    unfold invalid_block
    rcases hbad with ⟨i, hi, h⟩ | ⟨i, hi, h⟩ | ⟨i, hi, h⟩ | ⟨i, hi, h⟩
    · exact Or.inl ⟨i, hi, h⟩
    · exact Or.inr ⟨i, hi, by omega⟩
    · exact Or.inr ⟨i, hi, by omega⟩
    · exact Or.inr ⟨i, hi, by omega⟩
  · intro hgood
    rw [read_flash_presets, if_neg hgood]

/-- Witness for C6: a block with a subdivision byte of 11 leaves the
defaults untouched, and a fully valid block is loaded. -/
theorem load_all_or_nothing_witness :
    read_flash_presets [0x42, 0x50, 0x4D, 60, 90, 60, 150, 11, 1, 2, 1, 0, 0, 1, 0]
        initState = initState ∧
    read_flash_presets [0x42, 0x50, 0x4D, 100, 90, 60, 150, 2, 1, 2, 1, 1, 0, 1, 0]
        initState =
      { initState with
          tempo_presets := (List.range 4).map fun i =>
            List.getD [0x42, 0x50, 0x4D, 100, 90, 60, 150, 2, 1, 2, 1, 1, 0, 1, 0] (3 + i) 0
          subdiv_presets := (List.range 4).map fun i =>
            List.getD [0x42, 0x50, 0x4D, 100, 90, 60, 150, 2, 1, 2, 1, 1, 0, 1, 0] (3 + i + 4) 0
          accent_presets := (List.range 4).map fun i =>
            List.getD [0x42, 0x50, 0x4D, 100, 90, 60, 150, 2, 1, 2, 1, 1, 0, 1, 0] (3 + i + 8) 0 } :=
  ⟨(load_all_or_nothing _).1 (by decide), (load_all_or_nothing _).2 (by decide)⟩

lemma type_tempo_tempo_cases (d : Nat) (s : MetState) :
    (type_tempo d s).tempo = s.tempo ∨
    (1 ≤ (type_tempo d s).tempo ∧ (type_tempo d s).tempo ≤ 255) := by
  unfold type_tempo set_tempo stop
  dsimp only
  by_cases hc : 0 < (s.tempo_prompt * 10 + d) % 65536 ∧ (s.tempo_prompt * 10 + d) % 65536 < 256
  · rw [if_pos hc, if_neg (by omega)]
    dsimp only
    right
    constructor
    · omega
    · omega
  · rw [if_neg hc]
    left
    rfl

lemma type_seq_tempo_cases (ds : List Nat) (s : MetState) :
    (type_seq ds s).tempo = s.tempo ∨
    (1 ≤ (type_seq ds s).tempo ∧ (type_seq ds s).tempo ≤ 255) := by
  induction ds generalizing s with
  | nil => left; rfl
  | cons d ds ih =>
    have heq : type_seq (d :: ds) s = type_seq ds (type_tempo d s) := rfl
    rw [heq]
    rcases ih (type_tempo d s) with h | h
    · rw [h]; exact type_tempo_tempo_cases d s
    · right; exact h

/-- C7: a digit entry whose updated `uint16_t` buffer value is 256 or
greater never reaches `set_tempo` — the state is exactly the stopped
state with only the buffer changed — and over any digit sequence the
live tempo is either untouched or some applied prefix value in 1–255. -/
theorem buffer_overflow_never_applied (d : Nat) (s : MetState) :
    (256 ≤ (s.tempo_prompt * 10 + d) % 65536 →
      (type_tempo d s).tempo = s.tempo ∧
      (type_tempo d s).paused = true ∧
      (type_tempo d s).metronome = none ∧
      (type_tempo d s).tempo_prompt = (s.tempo_prompt * 10 + d) % 65536) ∧
    (∀ ds : List Nat,
      (type_seq ds s).tempo = s.tempo ∨
      (1 ≤ (type_seq ds s).tempo ∧ (type_seq ds s).tempo ≤ 255)) := by
  constructor
  · intro hge
    unfold type_tempo stop
    dsimp only
    rw [if_neg (by omega)]
    exact ⟨rfl, rfl, rfl, rfl⟩
  · intro ds
    exact type_seq_tempo_cases ds s

/-- Witness for C7: typing a 0 with 26 already buffered makes the buffer
260, which is not applied. -/
theorem buffer_overflow_never_applied_witness :
    256 ≤ (promptAt26.tempo_prompt * 10 + 0) % 65536 ∧
    ((type_tempo 0 promptAt26).tempo = promptAt26.tempo ∧
     (type_tempo 0 promptAt26).paused = true ∧
     (type_tempo 0 promptAt26).metronome = none ∧
     (type_tempo 0 promptAt26).tempo_prompt = (promptAt26.tempo_prompt * 10 + 0) % 65536) ∧
    ((type_seq [2, 6, 0] promptAt26).tempo = promptAt26.tempo ∨
     (1 ≤ (type_seq [2, 6, 0] promptAt26).tempo ∧ (type_seq [2, 6, 0] promptAt26).tempo ≤ 255)) :=
  ⟨by decide, (buffer_overflow_never_applied 0 promptAt26).1 (by decide),
    (buffer_overflow_never_applied 0 promptAt26).2 [2, 6, 0]⟩

end VRRVRR

namespace VRRVRR

lemma tickIter_cycle (n : Nat) (s : MetState) (h3 : s.subdiv = 3)
    (h0 : s.ticks = 0) (hr : s.recalc_interval = false) :
    (tickIter n s).ticks = n % 3 ∧ (tickIter n s).subdiv = 3 ∧
    (tickIter n s).recalc_interval = false ∧ (tickIter n s).accent = s.accent := by
  induction n with
  | zero => exact ⟨h0, h3, hr, rfl⟩
  | succ n ih =>
    obtain ⟨h1, h2, hrec, hacc⟩ := ih
    have hstep : tickIter (n + 1) s = (tick (tickIter n s)).2 := rfl
    rw [hstep]
    unfold tick
    dsimp only
    rw [if_neg (by rw [hrec]; exact Bool.false_ne_true)]
    have hmod : ((tickIter n s).ticks + 1) % 256 = (tickIter n s).ticks + 1 := by
      have := Nat.mod_lt n (show 0 < 3 by omega)
      omega
    refine ⟨?_, h2, hrec, hacc⟩
    dsimp only
    rw [h2, hmod, h1]
    have hlt : n % 3 < 3 := Nat.mod_lt n (by omega)
    rcases Nat.lt_or_ge (n % 3 + 1) 3 with hx | hx
    · rw [if_neg (by omega)]
      omega
    · rw [if_pos (by omega)]
      omega

/-- C8: with subdivision 3 and no pending retime, the tick counter
cycles 0,1,2,0,1,2,… (the state after `n` ticks holds `n % 3`), the
invariant `ticks < subdiv` holds after every tick, and the `is_first`
accent treatment of the next tick fires exactly when the accent flag is
enabled and the counter is 0 on entry. -/
theorem ticks_cycle_mod_subdiv (n : Nat) (s : MetState) (h3 : s.subdiv = 3)
    (h0 : s.ticks = 0) (hr : s.recalc_interval = false) :
    (tickIter n s).ticks = n % 3 ∧
    (tickIter n s).ticks < (tickIter n s).subdiv ∧
    ((tick (tickIter n s)).1 = true ↔ s.accent = true ∧ n % 3 = 0) := by
  obtain ⟨h1, h2, hrec, hacc⟩ := tickIter_cycle n s h3 h0 hr
  refine ⟨h1, by rw [h1, h2]; exact Nat.mod_lt n (by omega), ?_⟩
  unfold tick
  dsimp only
  rw [h1, hacc]
  simp [Bool.and_eq_true, beq_iff_eq]

/-- Witness for C8 after four ticks at subdivision 3. -/
theorem ticks_cycle_mod_subdiv_witness :
    subdivThree.subdiv = 3 ∧ subdivThree.ticks = 0 ∧ subdivThree.recalc_interval = false ∧
    ((tickIter 4 subdivThree).ticks = 4 % 3 ∧
     (tickIter 4 subdivThree).ticks < (tickIter 4 subdivThree).subdiv ∧
     ((tick (tickIter 4 subdivThree)).1 = true ↔ subdivThree.accent = true ∧ 4 % 3 = 0)) :=
  ⟨rfl, rfl, rfl, ticks_cycle_mod_subdiv 4 subdivThree rfl rfl rfl⟩

/-- C10: applying a preset whose slot subdivision lies outside 1–9 (a
state reachable through startup loading, which accepts subdivision bytes
up to 10, as the last conjunct shows on `subdivTenBlock`) overwrites the
live tempo and accent from the slot while `set_measure` returns without
touching the live subdivision, the beat timer, the paused flag or the
tick counter — the metronome keeps ticking at its previous interval. -/
theorem apply_preset_invalid_subdiv_partial (c : Nat) (s : MetState)
    (h : s.subdiv_presets.getD c 0 < 1 ∨ 9 < s.subdiv_presets.getD c 0) :
    (apply_preset c s).tempo = s.tempo_presets.getD c 0 ∧
    (apply_preset c s).accent = (s.accent_presets.getD c 0 != 0) ∧
    (apply_preset c s).subdiv = s.subdiv ∧
    (apply_preset c s).metronome = s.metronome ∧
    (apply_preset c s).paused = s.paused ∧
    (apply_preset c s).ticks = s.ticks ∧
    (read_flash_presets subdivTenBlock initState).subdiv_presets = [10, 1, 1, 1] := by
  unfold apply_preset set_measure
  dsimp only
  rw [if_pos h]
  exact ⟨rfl, rfl, rfl, rfl, rfl, rfl, by decide⟩

/-- Witness for C10 at slot 0 of `slotTenState`, whose subdivision
preset is 10. -/
theorem apply_preset_invalid_subdiv_partial_witness :
    (slotTenState.subdiv_presets.getD 0 0 < 1 ∨ 9 < slotTenState.subdiv_presets.getD 0 0) ∧
    ((apply_preset 0 slotTenState).tempo = slotTenState.tempo_presets.getD 0 0 ∧
     (apply_preset 0 slotTenState).accent = (slotTenState.accent_presets.getD 0 0 != 0) ∧
     (apply_preset 0 slotTenState).subdiv = slotTenState.subdiv ∧
     (apply_preset 0 slotTenState).metronome = slotTenState.metronome ∧
     (apply_preset 0 slotTenState).paused = slotTenState.paused ∧
     (apply_preset 0 slotTenState).ticks = slotTenState.ticks ∧
     (read_flash_presets subdivTenBlock initState).subdiv_presets = [10, 1, 1, 1]) :=
  ⟨by decide, apply_preset_invalid_subdiv_partial 0 slotTenState (by decide)⟩

end VRRVRR
